import Mathlib

/-!
Shallow embedding of the HalllDay kiosk core (src/routes/kiosk.py and the
admin end-session route of src/routes/admin.py), together with theorems
checking the natural-language specification against it.

Per-tenant modelling: every database query in the source filters by
`user_id`, so one `LedgerState` value models the ledger rows of a single
tenant; timestamps are natural numbers (seconds).
-/

namespace HalllDay

/-- Per-tenant settings snapshot (external-owned, read-only to the core). -/
structure Settings where
  capacity : Nat
  overdue_minutes : Nat
  room_name : String
  enable_queue : Bool
  auto_promote_queue : Bool
  allow_queue_while_suspended : Bool
  auto_ban_overdue : Bool
  kiosk_suspended : Bool
deriving Repr, DecidableEq

/-- A session ledger row (`Session` model): pass usage record. -/
structure Session where
  id : Nat
  student_id : String
  start_ts : Nat
  end_ts : Option Nat
  room : String
  ended_by : Option String
deriving Repr, DecidableEq

/-- A queue ledger row (`Queue` model): one waitlist entry. -/
structure QueueEntry where
  id : Nat
  student_id : String
  joined_ts : Nat
deriving Repr, DecidableEq

/-- The per-tenant ledger state: session rows (in insertion order, ids
assigned from `nextId`), queue rows, the set of banned codes, the roster
(code, display name) backing `get_student_name`, and the `Student` rows
created on first scan. -/
structure LedgerState where
  sessions : List Session
  queue : List QueueEntry
  banned : List String
  roster : List (String × String)
  students : List String
  nextId : Nat
deriving Repr, DecidableEq

/-- Roster lookup: display name for a code, if the code is enrolled. -/
def lookupName (roster : List (String × String)) (code : String) : Option String :=
  (roster.find? (fun p => p.1 == code)).map Prod.snd

/-- Modelled from the spec: `get_student_name` from app.py (not under src/)
resolves a code through the tenant roster and falls back to the given
default when the code is unknown. -/
def get_student_name (roster : List (String × String)) (code : String)
    (dflt : String) : String :=
  (lookupName roster code).getD dflt

/-- Modelled from the spec: `get_memory_roster` from app.py (not under
src/) returns the tenant roster rows. -/
def get_memory_roster (st : LedgerState) : List (String × String) :=
  st.roster

/-- Modelled from the spec: `get_open_sessions` from app.py (not under
src/) returns the tenant sessions with `end_ts` null. -/
def get_open_sessions (st : LedgerState) : List Session :=
  st.sessions.filter (fun s => s.end_ts.isNone)

/-- Modelled from the spec: `get_current_holder` from app.py (not under
src/); the legacy single-holder fields mirror the first open session. -/
def get_current_holder (st : LedgerState) : Option Session :=
  (get_open_sessions st).head?

/-- Modelled from the spec: `Session.duration_seconds` from app.py (not
under src/): elapsed seconds of a session, recomputed from the clock. -/
def duration_seconds (now : Nat) (s : Session) : Nat :=
  now - s.start_ts

/-- Modelled from the spec: `is_student_banned` from app.py (not under
src/): the ban flag of a code within the tenant. -/
def is_student_banned (st : LedgerState) (code : String) : Bool :=
  st.banned.contains code

/-- Modelled from the spec: `is_schedule_available` from app.py (not under
src/) combines the manual suspension flag with external schedule
availability and reports a reason; the scan route compares the reason
against the exact string "Manually suspended". -/
def is_schedule_available (settings : Settings) (schedOk : Bool)
    (schedReason : String) : Bool × String :=
  if settings.kiosk_suspended then (false, "Manually suspended")
  else if !schedOk then (false, schedReason)
  else (true, "")

/-- `Queue.query.order_by(joined_ts.asc()).first()`: the entry with the
least `joined_ts`, earliest row on ties (ids increase along the list). -/
def queueFront : List QueueEntry → Option QueueEntry
  | [] => none
  | e :: es =>
    match queueFront es with
    | none => some e
    | some m => if e.joined_ts ≤ m.joined_ts then some e else some m

/-- Stable insertion of a queue row into a `joined_ts`-sorted list. -/
def insertByTs (e : QueueEntry) : List QueueEntry → List QueueEntry
  | [] => [e]
  | x :: xs => if e.joined_ts ≤ x.joined_ts then e :: x :: xs else x :: insertByTs e xs

/-- `Queue.query.order_by(joined_ts.asc()).all()`: stable sort by
`joined_ts`, ties kept in row order (insertion ids). -/
def sortQueue : List QueueEntry → List QueueEntry
  | [] => []
  | x :: xs => insertByTs x (sortQueue xs)

/-- Python `str.strip()`: drop leading and trailing whitespace (an
executable equivalent of `String.trim`, written so that it reduces). -/
def pyStrip (s : String) : String :=
  ⟨((s.data.dropWhile Char.isWhitespace).reverse.dropWhile Char.isWhitespace).reverse⟩

/-- Setting `end_ts = now` and `ended_by` on the session row with the given
id (rows are addressed by primary key). -/
def closeSession (sessions : List Session) (sid : Nat) (now : Nat)
    (endedBy : String) : List Session :=
  sessions.map (fun t =>
    if t.id == sid then { t with end_ts := some now, ended_by := some endedBy } else t)

/-- The JSON body and HTTP status produced by `api_scan`. -/
structure ScanResponse where
  ok : Bool
  action : Option String := none
  message : Option String := none
  name : Option String := none
  next_student : Option String := none
  status : Nat := 200
deriving Repr, DecidableEq

/-- The JSON body and HTTP status of the simpler queue/admin routes. -/
structure ApiResponse where
  ok : Bool
  message : Option String := none
  status : Nat := 200
deriving Repr, DecidableEq

/-- Return path of `api_scan` (kiosk.py lines 261-298): optional overdue
auto-ban, close the session, then optional auto-promotion of the queue
head. `st` already contains any `Student` row created for the scanner. -/
def scanReturn (settings : Settings) (now : Nat) (c student_name : String)
    (s : Session) (st : LedgerState) : ScanResponse × LedgerState :=
  let overdueBan := settings.auto_ban_overdue
      && decide (duration_seconds now s > settings.overdue_minutes * 60)
      && !is_student_banned st c
  let action0 := if overdueBan then "ended_banned" else "ended"
  let msg0 : Option String :=
    if overdueBan then some "PASSED RETURNED LATE - AUTO BANNED" else none
  let st1 := if overdueBan then { st with banned := st.banned ++ [c] } else st
  let st2 := { st1 with sessions := closeSession st1.sessions s.id now "kiosk_scan" }
  if settings.enable_queue && settings.auto_promote_queue then
    match queueFront st2.queue with
    | some nxt =>
      let st3 := { st2 with
        sessions := st2.sessions ++
          [{ id := st2.nextId, student_id := nxt.student_id, start_ts := now,
             end_ts := none, room := settings.room_name, ended_by := some "auto" }],
        queue := st2.queue.eraseP (fun e => e.id == nxt.id),
        nextId := st2.nextId + 1 }
      ({ ok := true, action := some "ended_auto_started", message := msg0,
         name := some student_name,
         next_student := some (get_student_name st3.roster nxt.student_id "Student") },
       st3)
    | none =>
      ({ ok := true, action := some action0, message := msg0,
         name := some student_name }, st2)
  else
    ({ ok := true, action := some action0, message := msg0,
       name := some student_name }, st2)

/-- Capacity check and session start of `api_scan` (kiosk.py lines
330-353). `open_count` is the length of the open-session list read at the
top of the request, before any queue mutation. -/
def scanStart (settings : Settings) (available : Bool) (now : Nat)
    (c student_name : String) (open_count : Nat) (st : LedgerState) :
    ScanResponse × LedgerState :=
  if open_count ≥ settings.capacity ∨ available = false then
    match st.queue.find? (fun e => e.student_id == c) with
    | some _ =>
      ({ ok := false, action := some "denied_queue_position",
         message := some "You are in the waitlist.", status := 409 }, st)
    | none =>
      if settings.enable_queue then
        ({ ok := true, action := some "queued", message := some "Added to Waitlist" },
         { st with queue := st.queue ++ [⟨st.nextId, c, now⟩], nextId := st.nextId + 1 })
      else
        ({ ok := false, action := some "denied",
           message := some "Pass limit reached.", status := 409 }, st)
  else
    ({ ok := true, action := some "started", name := some student_name },
     { st with
        queue := st.queue.filter (fun e => !(e.student_id == c)),
        sessions := st.sessions ++
          [{ id := st.nextId, student_id := c, start_ts := now, end_ts := none,
             room := settings.room_name, ended_by := none }],
        nextId := st.nextId + 1 })

/-- The "ensure minimal Student record exists" step of `api_scan`
(kiosk.py lines 248-252): create a `Student` row on first sight of a
code. -/
def ensureStudent (c : String) (st : LedgerState) : LedgerState :=
  if st.students.contains c then st else { st with students := st.students ++ [c] }

/-- New-pass path of `api_scan` (kiosk.py lines 300-353): ban check, queue
self-removal, queue lock, then capacity check and start. A non-empty queue
is exactly one with a front entry. -/
def scanNewPass (settings : Settings) (available : Bool) (now : Nat)
    (c student_name : String) (open_count : Nat) (st : LedgerState) :
    ScanResponse × LedgerState :=
  if is_student_banned st c then
    ({ ok := false, action := some "banned",
       message := some "RESTROOM PRIVILEGES SUSPENDED - SEE TEACHER",
       name := some student_name, status := 403 }, st)
  else
    match st.queue.find? (fun e => e.student_id == c) with
    | some entry =>
      ({ ok := true, action := some "left_queue",
         message := some "Removed from waitlist", name := some student_name },
       { st with queue := st.queue.eraseP (fun e => e.id == entry.id) })
    | none =>
      match queueFront st.queue with
      | some top =>
        if !(top.student_id == c) then
          if settings.enable_queue then
            ({ ok := true, action := some "queued",
               message := some "Added to Waitlist (Queue is active)" },
             { st with queue := st.queue ++ [⟨st.nextId, c, now⟩],
                       nextId := st.nextId + 1 })
          else
            ({ ok := false, action := some "denied",
               message := some "Waitlist is active. Cannot start.", status := 409 }, st)
        else
          scanStart settings available now c student_name open_count
            { st with queue := st.queue.eraseP (fun e => e.id == top.id) }
      | none =>
        scanStart settings available now c student_name open_count st

/-- `api_scan` (kiosk.py lines 196-353): empty-code check, returning
lookup, suspension/schedule gate for new passes, roster resolution,
`Student` row creation, then the return or new-pass path. `schedOk` and
`schedReason` stand for the external schedule collaborator. -/
def api_scan (settings : Settings) (schedOk : Bool) (schedReason : String)
    (now : Nat) (code : String) (st : LedgerState) : ScanResponse × LedgerState :=
  let c := pyStrip code
  if c = "" then
    ({ ok := false, message := some "No code scanned", status := 400 }, st)
  else
    let open_sessions := get_open_sessions st
    let is_returning := open_sessions.any (fun s => s.student_id == c)
    let avail := is_schedule_available settings schedOk schedReason
    if !is_returning && !avail.1
        && !(settings.allow_queue_while_suspended && settings.enable_queue) then
      if avail.2 = "Manually suspended" then
        ({ ok := false,
           message := some "Kiosk is currently suspended by administrator",
           status := 403 }, st)
      else
        ({ ok := false, message := some ("Passes not available: " ++ avail.2),
           status := 403 }, st)
    else
      let student_name := get_student_name st.roster c "Student"
      if student_name = "Student" then
        if (get_memory_roster st).length = 0 then
          ({ ok := false, message := some "Roster empty. Please upload student list.",
             status := 404 }, st)
        else
          ({ ok := false, message := some ("Incorrect ID: " ++ c), status := 404 }, st)
      else
        let st1 := ensureStudent c st
        match open_sessions.find? (fun s => s.student_id == c) with
        | some s => scanReturn settings now c student_name s st1
        | none =>
          scanNewPass settings avail.1 now c student_name open_sessions.length st1

/-- One row of the `active_sessions` list of the status payload. -/
structure SessionView where
  id : Nat
  name : String
  elapsed : Nat
  overdue : Bool
  start : Nat
deriving Repr, DecidableEq

/-- One row of the `queue_list` of the status payload. -/
structure QueueView where
  name : String
  student_id : String
deriving Repr, DecidableEq

/-- The kiosk/display status payload (`_build_status_payload`); `start` is
the start timestamp of the legacy holder, absent (`none`) when no session
is open. -/
structure StatusPayload where
  server_time_ms : Nat
  overdue_minutes : Nat
  kiosk_suspended : Bool
  auto_ban_overdue : Bool
  auto_promote_queue : Bool
  capacity : Nat
  active_sessions : List SessionView
  queue : List String
  queue_list : List QueueView
  in_use : Bool
  name : String
  start : Option Nat
  elapsed : Nat
  overdue : Bool
deriving Repr, DecidableEq

/-- The auto-promotion loop of `_build_status_payload` (kiosk.py lines
47-64): while slots remain and the queue is non-empty, move the queue
front into a new open session (`ended_by = auto_promote`), one row at a
time, each iteration committed on its own. -/
def promoteLoop (settings : Settings) (now : Nat) : Nat → LedgerState → LedgerState
  | 0, st => st
  | n + 1, st =>
    match queueFront st.queue with
    | none => st
    | some nxt =>
      promoteLoop settings now n
        { st with
          sessions := st.sessions ++
            [{ id := st.nextId, student_id := nxt.student_id, start_ts := now,
               end_ts := none, room := settings.room_name,
               ended_by := some "auto_promote" }],
          queue := st.queue.eraseP (fun e => e.id == nxt.id),
          nextId := st.nextId + 1 }

/-- Payload composition of `_build_status_payload` (kiosk.py lines 66-119)
over the ledger state that results from the auto-promotion step: session
views, queue views, and the legacy single-holder fields mirroring
`get_current_holder` (empty/false/zero when it is absent). -/
def statusPayloadOf (settings : Settings) (kiosk_suspended : Bool) (now : Nat)
    (st1 : LedgerState) : StatusPayload :=
  let views := (get_open_sessions st1).map (fun sess =>
    { id := sess.id,
      name := get_student_name st1.roster sess.student_id "Student",
      elapsed := duration_seconds now sess,
      overdue := decide (duration_seconds now sess > settings.overdue_minutes * 60),
      start := sess.start_ts : SessionView })
  let qrows := sortQueue st1.queue
  let base : StatusPayload :=
    { server_time_ms := now * 1000,
      overdue_minutes := settings.overdue_minutes,
      kiosk_suspended := kiosk_suspended,
      auto_ban_overdue := settings.auto_ban_overdue,
      auto_promote_queue := settings.auto_promote_queue,
      capacity := settings.capacity,
      active_sessions := views,
      queue := qrows.map (fun q => get_student_name st1.roster q.student_id "Unknown"),
      queue_list := qrows.map (fun q =>
        ⟨get_student_name st1.roster q.student_id "Unknown", q.student_id⟩),
      in_use := false, name := "", start := none, elapsed := 0, overdue := false }
  match get_current_holder st1 with
  | some sess =>
    { base with
        in_use := true,
        name := get_student_name st1.roster sess.student_id "Student",
        start := some sess.start_ts,
        elapsed := duration_seconds now sess,
        overdue := decide (duration_seconds now sess > settings.overdue_minutes * 60) }
  | none => base

/-- `_build_status_payload` (kiosk.py lines 21-119): resolve availability,
auto-promote from the queue whenever the kiosk is available with the queue
feature and auto-promote enabled, then compose the payload over the
resulting ledger. `slots_available` is a Python int, so it is computed in
`Int` before the loop bound is taken. -/
def _build_status_payload (settings : Settings) (schedOk : Bool)
    (schedReason : String) (now : Nat) (st : LedgerState) :
    StatusPayload × LedgerState :=
  let avail := is_schedule_available settings schedOk schedReason
  let st1 :=
    if avail.1 && settings.enable_queue && settings.auto_promote_queue then
      promoteLoop settings now
        (((settings.capacity : Int) - ((get_open_sessions st).length : Int)).toNat) st
    else st
  (statusPayloadOf settings (!avail.1) now st1, st1)

/-- `api_end_session` (admin.py lines 150-190): close the addressed open
session with `ended_by = admin_override`, then auto-promote the queue
front when the queue feature and auto-promote are enabled. A `session_id`
of 0 models a missing/falsy id (row ids start at 1). -/
def api_end_session (settings : Settings) (now : Nat) (session_id : Nat)
    (st : LedgerState) : ApiResponse × LedgerState :=
  if session_id = 0 then
    ({ ok := false, message := some "Missing session ID", status := 400 }, st)
  else
    match st.sessions.find? (fun s => s.id == session_id) with
    | none => ({ ok := false, message := some "Session not found", status := 404 }, st)
    | some sess =>
      if sess.end_ts.isSome then
        ({ ok := false, message := some "Session already ended", status := 400 }, st)
      else
        let st1 := { st with sessions := closeSession st.sessions sess.id now "admin_override" }
        let endedMsg := "Ended session for " ++ get_student_name st1.roster sess.student_id "Student"
        if settings.enable_queue && settings.auto_promote_queue then
          match queueFront st1.queue with
          | some nxt =>
            ({ ok := true,
               message := some (endedMsg ++ ". Auto-started " ++
                 get_student_name st1.roster nxt.student_id "Student" ++ " from waitlist.") },
             { st1 with
                sessions := st1.sessions ++
                  [{ id := st1.nextId, student_id := nxt.student_id, start_ts := now,
                     end_ts := none, room := settings.room_name, ended_by := some "auto" }],
                queue := st1.queue.eraseP (fun e => e.id == nxt.id),
                nextId := st1.nextId + 1 })
          | none => ({ ok := true, message := some endedMsg }, st1)
        else ({ ok := true, message := some endedMsg }, st1)

/-- `api_queue_join` (kiosk.py lines 384-404): reject a falsy code, do
nothing when the code already has a queue row, otherwise append a row. -/
def api_queue_join (now : Nat) (code : String) (st : LedgerState) :
    ApiResponse × LedgerState :=
  if code = "" then ({ ok := false, status := 400 }, st)
  else if (st.queue.find? (fun e => e.student_id == code)).isSome then
    ({ ok := true, message := some "Already in queue" }, st)
  else
    ({ ok := true },
     { st with queue := st.queue ++ [⟨st.nextId, code, now⟩], nextId := st.nextId + 1 })

/-- `api_queue_leave` (kiosk.py lines 407-419): delete every queue row of
the code. -/
def api_queue_leave (code : String) (st : LedgerState) : ApiResponse × LedgerState :=
  ({ ok := true }, { st with queue := st.queue.filter (fun e => !(e.student_id == code)) })

/-- `api_queue_delete` (kiosk.py lines 422-451), after the admin auth
gate: reject a falsy id, else delete every queue row of the id. -/
def api_queue_delete (student_id : String) (st : LedgerState) :
    ApiResponse × LedgerState :=
  if student_id = "" then
    ({ ok := false, message := some "Missing student_id", status := 400 }, st)
  else
    ({ ok := true },
     { st with queue := st.queue.filter (fun e => !(e.student_id == student_id)) })

/-- Index of the last occurrence of `x` in `l` (the reorder loop assigns
in list order, so on duplicate ids the last assignment wins). -/
def lastIdx : List String → String → Option Nat
  | [], _ => none
  | y :: ys, x =>
    match lastIdx ys x with
    | some i => some (i + 1)
    | none => if y == x then some 0 else none

/-- `api_queue_reorder` (kiosk.py lines 454-492), after the admin auth
gate: rows named in `new_order` get `joined_ts = base_time + index`
(seconds), rows not named keep their timestamp. The Python loop updates
the row found in a dict keyed by `student_id`; with at most one queue row
per code (the maintained invariant) that is the row mapped here. -/
def api_queue_reorder (now : Nat) (new_order : List String) (st : LedgerState) :
    ApiResponse × LedgerState :=
  if new_order = [] then
    ({ ok := false, message := some "No order provided", status := 400 }, st)
  else
    ({ ok := true, message := some "Queue reordered" },
     { st with queue := st.queue.map (fun e =>
         match lastIdx new_order e.student_id with
         | some i => { e with joined_ts := now + i }
         | none => e) })

/-- One ledger-mutating operation of the core, as dispatched by the HTTP
routes. -/
inductive Op where
  | scan (code : String)
  | status
  | endSession (sid : Nat)
  | queueJoin (code : String)
  | queueLeave (code : String)
  | queueDelete (sid : String)
  | queueReorder (ids : List String)
deriving Repr, DecidableEq

/-- The ledger state after one operation. -/
def applyOp (settings : Settings) (schedOk : Bool) (schedReason : String)
    (now : Nat) (op : Op) (st : LedgerState) : LedgerState :=
  match op with
  | .scan code => (api_scan settings schedOk schedReason now code st).2
  | .status => (_build_status_payload settings schedOk schedReason now st).2
  | .endSession sid => (api_end_session settings now sid st).2
  | .queueJoin code => (api_queue_join now code st).2
  | .queueLeave code => (api_queue_leave code st).2
  | .queueDelete sid => (api_queue_delete sid st).2
  | .queueReorder ids => (api_queue_reorder now ids st).2

/-- Ledger states reachable from an empty ledger (any roster) under the
core operations, for one tenant with a fixed settings snapshot; the clock
and the external schedule input vary freely between steps. -/
inductive Reach (settings : Settings) : LedgerState → Prop
  | init (roster : List (String × String)) :
      Reach settings
        { sessions := [], queue := [], banned := [], roster := roster,
          students := [], nextId := 1 }
  | step (schedOk : Bool) (schedReason : String) (now : Nat) (op : Op)
      (st : LedgerState) :
      Reach settings st →
      Reach settings (applyOp settings schedOk schedReason now op st)

/-- Number of open sessions of the tenant. -/
def countOpen (st : LedgerState) : Nat :=
  (get_open_sessions st).length

/-- Student codes currently in the queue, in row order. -/
def queueCodes (st : LedgerState) : List String :=
  st.queue.map (fun e => e.student_id)

/-- Number of open sessions in a raw session list. -/
def openCountL (l : List Session) : Nat :=
  (l.filter (fun s => s.end_ts.isNone)).length

/-! ### Concrete tenants used by the scenario claims -/

/-- Settings: capacity 1, queue feature disabled. -/
def capOneNoQueue : Settings := ⟨1, 10, "Room", false, false, false, false, false⟩

/-- Settings: capacity 1, queue enabled, auto-promote enabled. -/
def capOneAutoPromote : Settings := ⟨1, 10, "Room", true, true, false, false, false⟩

/-- Settings: overdue auto-ban enabled, overdue threshold 10 minutes. -/
def autoBanSettings : Settings := ⟨5, 10, "Room", false, false, false, true, false⟩

/-- Settings: kiosk manually suspended, queue disabled. -/
def suspendedSettings : Settings := ⟨1, 10, "Room", false, false, false, false, true⟩

/-- An empty ledger with a two-student roster. -/
def twoStudentState : LedgerState :=
  ⟨[], [], [], [("111", "Alice"), ("222", "Bob")], [], 1⟩

/-- A ledger whose only open session belongs to code "999", which is not
on the roster (reachable through queue join and auto-promotion). -/
def unrosteredHolderState : LedgerState :=
  ⟨[⟨1, "999", 0, none, "Room", some "auto"⟩], [], [], [("111", "Alice")], [], 2⟩

/-- A ledger where rostered "111" has held an open session since time 0. -/
def rosteredHolderState : LedgerState :=
  ⟨[⟨1, "111", 0, none, "Room", none⟩], [], [], [("111", "Alice")], ["111"], 2⟩

/-- A ledger whose only open session belongs to code "555", not on the
roster. -/
def unrosteredHolderState2 : LedgerState :=
  ⟨[⟨1, "555", 50, none, "Room", none⟩], [], [], [("222", "Bob")], [], 2⟩

/-- A ledger where rostered "111" waits in the queue and nobody is out. -/
def queuedState : LedgerState :=
  ⟨[], [⟨1, "111", 5⟩], [], [("111", "Alice")], [], 2⟩

/-- A ledger with queue rows A = "333" (joined 10) then B = "444"
(joined 20). -/
def reorderState : LedgerState :=
  ⟨[], [⟨1, "333", 10⟩, ⟨2, "444", 20⟩], [], [("333", "Ann"), ("444", "Ben")], [], 3⟩

/-- Settings: capacity 2, queue enabled, auto-promote enabled. -/
def capTwoAutoPromote : Settings := ⟨2, 10, "Room", true, true, false, false, false⟩

/-! ### Counting lemmas -/

theorem countOpen_eq (st : LedgerState) : countOpen st = openCountL st.sessions := rfl

theorem openCountL_cons (x : Session) (xs : List Session) :
    openCountL (x :: xs) = (if x.end_ts.isNone then 1 else 0) + openCountL xs := by
  simp only [openCountL, List.filter_cons]
  split <;> simp [Nat.add_comm]

theorem openCountL_append (l l' : List Session) :
    openCountL (l ++ l') = openCountL l + openCountL l' := by
  simp [openCountL, List.filter_append]

theorem openCountL_closeSession_le (l : List Session) (sid now : Nat) (eb : String) :
    openCountL (closeSession l sid now eb) ≤ openCountL l := by
  induction l with
  | nil => simp [closeSession, openCountL]
  | cons t ts ih =>
    simp only [closeSession, List.map_cons] at ih ⊢
    rw [openCountL_cons, openCountL_cons]
    by_cases h : (t.id == sid) = true
    · rw [if_pos h]
      have hb : ({ t with end_ts := some now, ended_by := some eb } : Session).end_ts.isNone
          = false := rfl
      rw [hb]
      simp only [Bool.false_eq_true, if_false]
      omega
    · rw [if_neg h]
      omega

theorem openCountL_closeSession_lt (l : List Session) (s : Session) (now : Nat) (eb : String)
    (hmem : s ∈ l) (hopen : s.end_ts = none) :
    openCountL (closeSession l s.id now eb) + 1 ≤ openCountL l := by
  induction l with
  | nil => cases hmem
  | cons t ts ih =>
    simp only [closeSession, List.map_cons] at ih ⊢
    rw [openCountL_cons, openCountL_cons]
    rcases List.mem_cons.mp hmem with rfl | hmem'
    · have hinner :
          (if (s.id == s.id) = true then
            { s with end_ts := some now, ended_by := some eb } else s) =
          { s with end_ts := some now, ended_by := some eb } := if_pos (by simp)
      rw [hinner]
      have hb : ({ s with end_ts := some now, ended_by := some eb } : Session).end_ts.isNone
          = false := rfl
      rw [hb, hopen]
      simp only [Bool.false_eq_true, if_false, Option.isNone_none, if_true]
      have hle := openCountL_closeSession_le ts s.id now eb
      simp only [closeSession] at hle
      omega
    · have h2 := ih hmem'
      by_cases h : (t.id == s.id) = true
      · rw [if_pos h]
        have hb : ({ t with end_ts := some now, ended_by := some eb } : Session).end_ts.isNone
            = false := rfl
        rw [hb]
        simp only [Bool.false_eq_true, if_false]
        omega
      · rw [if_neg h]
        omega

theorem queueFront_cons_isSome (e : QueueEntry) (es : List QueueEntry) :
    (queueFront (e :: es)).isSome = true := by
  simp only [queueFront]
  cases queueFront es
  · rfl
  · dsimp only
    split <;> rfl

theorem eq_nil_of_queueFront_eq_none {q : List QueueEntry}
    (h : queueFront q = none) : q = [] := by
  cases q with
  | nil => rfl
  | cons e es =>
    have h2 := queueFront_cons_isSome e es
    rw [h] at h2
    simp at h2

theorem queueFront_mem {q : List QueueEntry} {e : QueueEntry}
    (h : queueFront q = some e) : e ∈ q := by
  induction q with
  | nil => exact Option.noConfusion h
  | cons x xs ih =>
    simp only [queueFront] at h
    cases h2 : queueFront xs <;> rw [h2] at h <;> dsimp only at h
    · obtain rfl := Option.some.inj h
      exact List.mem_cons_self x xs
    · split at h
      · obtain rfl := Option.some.inj h
        exact List.mem_cons_self x xs
      · obtain rfl := Option.some.inj h
        exact List.mem_cons_of_mem _ (ih h2)

theorem promoteLoop_countOpen (settings : Settings) (now : Nat) :
    ∀ (n : Nat) (st : LedgerState),
      countOpen (promoteLoop settings now n st) =
        countOpen st + min n st.queue.length := by
  intro n
  induction n with
  | zero => intro st; simp [promoteLoop]
  | succ n ih =>
    intro st
    cases h : queueFront st.queue with
    | none =>
      have hq := eq_nil_of_queueFront_eq_none h
      simp [promoteLoop, h, hq, queueFront]
    | some nxt =>
      have hmem := queueFront_mem h
      have hlen : (st.queue.eraseP (fun e => e.id == nxt.id)).length =
          st.queue.length - 1 :=
        List.length_eraseP_of_mem hmem (by simp)
      have hpos : 1 ≤ st.queue.length := List.length_pos.mpr (List.ne_nil_of_mem hmem)
      simp only [promoteLoop, h]
      rw [ih]
      simp only [countOpen_eq, openCountL_append, hlen]
      simp [openCountL]
      omega

theorem promoteLoop_queue_sublist (settings : Settings) (now : Nat) :
    ∀ (n : Nat) (st : LedgerState),
      (promoteLoop settings now n st).queue.Sublist st.queue := by
  intro n
  induction n with
  | zero => intro st; simp [promoteLoop]
  | succ n ih =>
    intro st
    cases h : queueFront st.queue with
    | none => simp [promoteLoop, h]
    | some nxt =>
      simp only [promoteLoop, h]
      exact (ih _).trans (List.eraseP_sublist st.queue)

theorem build_status_payload_snd (settings : Settings) (schedOk : Bool)
    (schedReason : String) (now : Nat) (st : LedgerState) :
    (_build_status_payload settings schedOk schedReason now st).2 =
      if (is_schedule_available settings schedOk schedReason).1
          && settings.enable_queue && settings.auto_promote_queue then
        promoteLoop settings now
          (((settings.capacity : Int) - ((get_open_sessions st).length : Int)).toNat) st
      else st := rfl

/-! ### Capacity preservation, operation by operation -/

theorem ensureStudent_sessions (c : String) (st : LedgerState) :
    (ensureStudent c st).sessions = st.sessions := by
  rw [ensureStudent]; split <;> rfl

theorem ensureStudent_queue (c : String) (st : LedgerState) :
    (ensureStudent c st).queue = st.queue := by
  rw [ensureStudent]; split <;> rfl

theorem ensureStudent_banned (c : String) (st : LedgerState) :
    (ensureStudent c st).banned = st.banned := by
  rw [ensureStudent]; split <;> rfl

theorem ensureStudent_roster (c : String) (st : LedgerState) :
    (ensureStudent c st).roster = st.roster := by
  rw [ensureStudent]; split <;> rfl

theorem is_student_banned_ensureStudent (c c' : String) (st : LedgerState) :
    is_student_banned (ensureStudent c st) c' = is_student_banned st c' := by
  rw [is_student_banned, is_student_banned, ensureStudent_banned]

theorem scanStart_countOpen_le (settings : Settings) (available : Bool) (now : Nat)
    (c nm : String) (oc : Nat) (st : LedgerState)
    (h1 : countOpen st ≤ settings.capacity) (h2 : countOpen st = oc) :
    countOpen (scanStart settings available now c nm oc st).2 ≤ settings.capacity := by
  simp only [scanStart]
  split
  · split
    · exact h1
    · split
      · exact h1
      · exact h1
  · rename_i hcond
    push_neg at hcond
    dsimp only
    rw [countOpen_eq] at h2 ⊢
    dsimp only
    rw [openCountL_append]
    have hone : openCountL
        [{ id := st.nextId, student_id := c, start_ts := now, end_ts := none,
           room := settings.room_name, ended_by := none }] = 1 := rfl
    omega

theorem scanReturn_countOpen_le (settings : Settings) (now : Nat) (c nm : String)
    (s : Session) (st : LedgerState)
    (h1 : countOpen st ≤ settings.capacity)
    (hmem : s ∈ st.sessions) (hopen : s.end_ts = none) :
    countOpen (scanReturn settings now c nm s st).2 ≤ settings.capacity := by
  simp only [scanReturn]
  have hban : ∀ b : Bool,
      (if b = true then { st with banned := st.banned ++ [c] } else st).sessions
        = st.sessions := by
    intro b; split <;> rfl
  have hclose := openCountL_closeSession_lt st.sessions s now "kiosk_scan" hmem hopen
  split
  · split
    · rename_i nxt hfront
      dsimp only
      rw [countOpen_eq]
      dsimp only
      rw [hban, openCountL_append]
      have hone : ∀ i : Nat, openCountL
          [{ id := i, student_id := nxt.student_id, start_ts := now, end_ts := none,
             room := settings.room_name, ended_by := some "auto" }] = 1 := fun i => rfl
      rw [hone]
      rw [countOpen_eq] at h1
      omega
    · dsimp only
      rw [countOpen_eq]
      dsimp only
      rw [hban]
      rw [countOpen_eq] at h1
      omega
  · dsimp only
    rw [countOpen_eq]
    dsimp only
    rw [hban]
    rw [countOpen_eq] at h1
    omega

theorem scanNewPass_countOpen_le (settings : Settings) (available : Bool) (now : Nat)
    (c nm : String) (oc : Nat) (st : LedgerState)
    (h1 : countOpen st ≤ settings.capacity) (h2 : countOpen st = oc) :
    countOpen (scanNewPass settings available now c nm oc st).2 ≤ settings.capacity := by
  simp only [scanNewPass]
  split
  · exact h1
  · split
    · exact h1
    · split
      · split
        · split
          · exact h1
          · exact h1
        · exact scanStart_countOpen_le settings available now c nm oc _ h1 h2
      · exact scanStart_countOpen_le settings available now c nm oc _ h1 h2

theorem api_scan_countOpen_le (settings : Settings) (schedOk : Bool) (schedReason : String)
    (now : Nat) (code : String) (st : LedgerState)
    (h : countOpen st ≤ settings.capacity) :
    countOpen (api_scan settings schedOk schedReason now code st).2 ≤ settings.capacity := by
  simp only [api_scan]
  split
  · exact h
  · split
    · split
      · exact h
      · exact h
    · split
      · split
        · exact h
        · exact h
      · split
        · rename_i s hfind
          have hsm := List.mem_of_find?_eq_some hfind
          rw [get_open_sessions, List.mem_filter] at hsm
          apply scanReturn_countOpen_le
          · rw [countOpen_eq, ensureStudent_sessions]
            exact h
          · rw [ensureStudent_sessions]
            exact hsm.1
          · exact Option.isNone_iff_eq_none.mp hsm.2
        · apply scanNewPass_countOpen_le
          · rw [countOpen_eq, ensureStudent_sessions]
            exact h
          · rw [countOpen_eq, ensureStudent_sessions]
            rfl

theorem api_end_session_countOpen_le (settings : Settings) (now sid : Nat)
    (st : LedgerState) (h : countOpen st ≤ settings.capacity) :
    countOpen (api_end_session settings now sid st).2 ≤ settings.capacity := by
  simp only [api_end_session]
  split
  · exact h
  · split
    · exact h
    · rename_i sess hfind
      split
      · exact h
      · rename_i hend
        have hmem := List.mem_of_find?_eq_some hfind
        have hopen : sess.end_ts = none := by
          cases he : sess.end_ts
          · rfl
          · rw [he] at hend; simp at hend
        have hclose := openCountL_closeSession_lt st.sessions sess now "admin_override"
          hmem hopen
        rw [countOpen_eq] at h
        split
        · split
          · rename_i nxt hfront
            dsimp only
            rw [countOpen_eq]
            dsimp only
            rw [openCountL_append]
            have hone : openCountL
                [{ id := st.nextId, student_id := nxt.student_id, start_ts := now,
                   end_ts := none, room := settings.room_name, ended_by := some "auto" }]
                = 1 := rfl
            rw [hone]
            omega
          · dsimp only
            rw [countOpen_eq]
            dsimp only
            omega
        · dsimp only
          rw [countOpen_eq]
          dsimp only
          omega

theorem build_status_payload_countOpen_le (settings : Settings) (schedOk : Bool)
    (schedReason : String) (now : Nat) (st : LedgerState)
    (h : countOpen st ≤ settings.capacity) :
    countOpen (_build_status_payload settings schedOk schedReason now st).2
      ≤ settings.capacity := by
  rw [build_status_payload_snd]
  split
  · rw [promoteLoop_countOpen]
    have hoc : (get_open_sessions st).length = countOpen st := rfl
    rw [hoc]
    omega
  · exact h

theorem api_queue_join_countOpen (now : Nat) (code : String) (st : LedgerState) :
    countOpen (api_queue_join now code st).2 = countOpen st := by
  simp only [api_queue_join]
  split
  · rfl
  · split <;> rfl

theorem api_queue_leave_countOpen (code : String) (st : LedgerState) :
    countOpen (api_queue_leave code st).2 = countOpen st := rfl

theorem api_queue_delete_countOpen (sid : String) (st : LedgerState) :
    countOpen (api_queue_delete sid st).2 = countOpen st := by
  simp only [api_queue_delete]
  split <;> rfl

theorem api_queue_reorder_countOpen (now : Nat) (ids : List String) (st : LedgerState) :
    countOpen (api_queue_reorder now ids st).2 = countOpen st := by
  simp only [api_queue_reorder]
  split <;> rfl

theorem countOpen_applyOp_le (settings : Settings) (schedOk : Bool) (schedReason : String)
    (now : Nat) (op : Op) (st : LedgerState)
    (h : countOpen st ≤ settings.capacity) :
    countOpen (applyOp settings schedOk schedReason now op st) ≤ settings.capacity := by
  cases op with
  | scan code => exact api_scan_countOpen_le settings schedOk schedReason now code st h
  | status => exact build_status_payload_countOpen_le settings schedOk schedReason now st h
  | endSession sid => exact api_end_session_countOpen_le settings now sid st h
  | queueJoin code => rw [applyOp, api_queue_join_countOpen]; exact h
  | queueLeave code => rw [applyOp, api_queue_leave_countOpen]; exact h
  | queueDelete sid => rw [applyOp, api_queue_delete_countOpen]; exact h
  | queueReorder ids => rw [applyOp, api_queue_reorder_countOpen]; exact h

/-- C1: for every tenant (one fixed settings snapshot) and every reachable
ledger state — in particular after any single scan, status snapshot with
its auto-promotions, or admin end-session applied to a reachable state —
the number of open sessions is at most the capacity setting. -/
theorem c1_open_sessions_le_capacity (settings : Settings) (st : LedgerState)
    (h : Reach settings st) : countOpen st ≤ settings.capacity := by
  induction h with
  | init roster => simp [countOpen, get_open_sessions, List.filter]
  | step schedOk schedReason now op st hst ih =>
    exact countOpen_applyOp_le settings schedOk schedReason now op st ih

/-- Witness for C1 at a concrete two-step reachable state. -/
theorem c1_open_sessions_le_capacity_witness :
    countOpen (applyOp ⟨1, 10, "Room", false, false, false, false, false⟩ true "" 5
      (Op.scan "111")
      { sessions := [], queue := [], banned := [], roster := [("111", "Alice")],
        students := [], nextId := 1 }) ≤ 1 :=
  c1_open_sessions_le_capacity ⟨1, 10, "Room", false, false, false, false, false⟩ _
    (Reach.step true "" 5 (Op.scan "111") _ (Reach.init [("111", "Alice")]))

/-! ### Queue duplicate-freedom, operation by operation -/

theorem nodup_map_eraseP (q : List QueueEntry) (p : QueueEntry → Bool)
    (h : (q.map (fun e => e.student_id)).Nodup) :
    ((q.eraseP p).map (fun e => e.student_id)).Nodup :=
  List.Nodup.sublist ((List.eraseP_sublist q).map _) h

theorem nodup_map_filter (q : List QueueEntry) (p : QueueEntry → Bool)
    (h : (q.map (fun e => e.student_id)).Nodup) :
    ((q.filter p).map (fun e => e.student_id)).Nodup :=
  List.Nodup.sublist ((List.filter_sublist q).map _) h

theorem nodup_map_append_new (q : List QueueEntry) (x : QueueEntry)
    (h : (q.map (fun e => e.student_id)).Nodup)
    (habs : ∀ e ∈ q, e.student_id ≠ x.student_id) :
    ((q ++ [x]).map (fun e => e.student_id)).Nodup := by
  rw [List.map_append, List.nodup_append]
  refine ⟨h, by simp, ?_⟩
  intro a ha hb
  obtain ⟨e, he, rfl⟩ := List.mem_map.mp ha
  simp only [List.map_cons, List.map_nil, List.mem_singleton] at hb
  exact habs e he hb

theorem not_mem_of_find?_sid_eq_none {q : List QueueEntry} {c : String}
    (h : q.find? (fun e => e.student_id == c) = none) :
    ∀ e ∈ q, e.student_id ≠ c := by
  intro e he
  have h2 := List.find?_eq_none.mp h e he
  simpa using h2

theorem scanStart_queueCodes_nodup (settings : Settings) (available : Bool) (now : Nat)
    (c nm : String) (oc : Nat) (st : LedgerState)
    (h : (queueCodes st).Nodup) (habs : ∀ e ∈ st.queue, e.student_id ≠ c) :
    (queueCodes (scanStart settings available now c nm oc st).2).Nodup := by
  simp only [scanStart]
  split
  · split
    · exact h
    · split
      · exact nodup_map_append_new st.queue ⟨st.nextId, c, now⟩ h habs
      · exact h
  · exact nodup_map_filter st.queue _ h

theorem scanReturn_queueCodes_nodup (settings : Settings) (now : Nat) (c nm : String)
    (s : Session) (st : LedgerState) (h : (queueCodes st).Nodup) :
    (queueCodes (scanReturn settings now c nm s st).2).Nodup := by
  simp only [scanReturn]
  have hq : ∀ b : Bool,
      ((if b = true then { st with banned := st.banned ++ [c] } else st) :
        LedgerState).queue = st.queue := by
    intro b; split <;> rfl
  split
  · split
    · dsimp only [queueCodes]
      rw [hq]
      exact nodup_map_eraseP st.queue _ h
    · dsimp only [queueCodes]
      rw [hq]
      exact h
  · dsimp only [queueCodes]
    rw [hq]
    exact h

theorem scanNewPass_queueCodes_nodup (settings : Settings) (available : Bool) (now : Nat)
    (c nm : String) (oc : Nat) (st : LedgerState) (h : (queueCodes st).Nodup) :
    (queueCodes (scanNewPass settings available now c nm oc st).2).Nodup := by
  simp only [scanNewPass]
  split
  · exact h
  · split
    · exact nodup_map_eraseP st.queue _ h
    · rename_i hfind
      have habs := not_mem_of_find?_sid_eq_none hfind
      split
      · split
        · split
          · exact nodup_map_append_new st.queue ⟨st.nextId, c, now⟩ h habs
          · exact h
        · apply scanStart_queueCodes_nodup
          · exact nodup_map_eraseP st.queue _ h
          · intro e he
            exact habs e ((List.eraseP_sublist st.queue).subset he)
      · exact scanStart_queueCodes_nodup settings available now c nm oc st h habs

theorem api_scan_queueCodes_nodup (settings : Settings) (schedOk : Bool)
    (schedReason : String) (now : Nat) (code : String) (st : LedgerState)
    (h : (queueCodes st).Nodup) :
    (queueCodes (api_scan settings schedOk schedReason now code st).2).Nodup := by
  simp only [api_scan]
  split
  · exact h
  · split
    · split
      · exact h
      · exact h
    · split
      · split
        · exact h
        · exact h
      · split
        · apply scanReturn_queueCodes_nodup
          dsimp only [queueCodes]
          rw [ensureStudent_queue]
          exact h
        · apply scanNewPass_queueCodes_nodup
          dsimp only [queueCodes]
          rw [ensureStudent_queue]
          exact h

theorem api_queue_join_queueCodes_nodup (now : Nat) (code : String) (st : LedgerState)
    (h : (queueCodes st).Nodup) :
    (queueCodes (api_queue_join now code st).2).Nodup := by
  simp only [api_queue_join]
  split
  · exact h
  · split
    · exact h
    · rename_i hsome
      have hnone : st.queue.find? (fun e => e.student_id == code) = none := by
        cases hf : st.queue.find? (fun e => e.student_id == code)
        · rfl
        · rw [hf] at hsome; simp at hsome
      exact nodup_map_append_new st.queue ⟨st.nextId, code, now⟩ h
        (not_mem_of_find?_sid_eq_none hnone)

theorem api_queue_leave_queueCodes_nodup (code : String) (st : LedgerState)
    (h : (queueCodes st).Nodup) :
    (queueCodes (api_queue_leave code st).2).Nodup :=
  nodup_map_filter st.queue _ h

theorem api_queue_delete_queueCodes_nodup (sid : String) (st : LedgerState)
    (h : (queueCodes st).Nodup) :
    (queueCodes (api_queue_delete sid st).2).Nodup := by
  simp only [api_queue_delete]
  split
  · exact h
  · exact nodup_map_filter st.queue _ h

theorem api_queue_reorder_queueCodes_nodup (now : Nat) (ids : List String)
    (st : LedgerState) (h : (queueCodes st).Nodup) :
    (queueCodes (api_queue_reorder now ids st).2).Nodup := by
  simp only [api_queue_reorder]
  split
  · exact h
  · dsimp only [queueCodes]
    rw [List.map_map]
    have hcongr : st.queue.map
        ((fun e => e.student_id) ∘ (fun e =>
          match lastIdx ids e.student_id with
          | some i => { e with joined_ts := now + i }
          | none => e)) = st.queue.map (fun e => e.student_id) := by
      apply List.map_congr_left
      intro e _
      cases hl : lastIdx ids e.student_id <;> simp [hl, Function.comp]
    rw [hcongr]
    exact h

theorem api_end_session_queueCodes_nodup (settings : Settings) (now sid : Nat)
    (st : LedgerState) (h : (queueCodes st).Nodup) :
    (queueCodes (api_end_session settings now sid st).2).Nodup := by
  simp only [api_end_session]
  split
  · exact h
  · split
    · exact h
    · split
      · exact h
      · split
        · split
          · exact nodup_map_eraseP st.queue _ h
          · exact h
        · exact h

theorem build_status_queueCodes_nodup (settings : Settings) (schedOk : Bool)
    (schedReason : String) (now : Nat) (st : LedgerState)
    (h : (queueCodes st).Nodup) :
    (queueCodes (_build_status_payload settings schedOk schedReason now st).2).Nodup := by
  have hsnd := build_status_payload_snd settings schedOk schedReason now st
  rw [show (queueCodes (_build_status_payload settings schedOk schedReason now st).2)
      = (_build_status_payload settings schedOk schedReason now st).2.queue.map
          (fun e => e.student_id) from rfl, hsnd]
  split
  · exact List.Nodup.sublist ((promoteLoop_queue_sublist settings now _ st).map _) h
  · exact h

theorem queueCodes_applyOp_nodup (settings : Settings) (schedOk : Bool)
    (schedReason : String) (now : Nat) (op : Op) (st : LedgerState)
    (h : (queueCodes st).Nodup) :
    (queueCodes (applyOp settings schedOk schedReason now op st)).Nodup := by
  cases op with
  | scan code => exact api_scan_queueCodes_nodup settings schedOk schedReason now code st h
  | status => exact build_status_queueCodes_nodup settings schedOk schedReason now st h
  | endSession sid => exact api_end_session_queueCodes_nodup settings now sid st h
  | queueJoin code => exact api_queue_join_queueCodes_nodup now code st h
  | queueLeave code => exact api_queue_leave_queueCodes_nodup code st h
  | queueDelete sid => exact api_queue_delete_queueCodes_nodup sid st h
  | queueReorder ids => exact api_queue_reorder_queueCodes_nodup now ids st h

theorem reach_queueCodes_nodup (settings : Settings) (st : LedgerState)
    (h : Reach settings st) : (queueCodes st).Nodup := by
  induction h with
  | init roster => simp [queueCodes]
  | step schedOk schedReason now op st hst ih =>
    exact queueCodes_applyOp_nodup settings schedOk schedReason now op st ih

/-- C6: in every reachable ledger state no student code has two queue
rows at once — the at-most-one-entry-per-(tenant, code) invariant is
preserved by every operation — and a queue join for a code already
present leaves the ledger unchanged. -/
theorem c6_queue_one_entry_per_code (settings : Settings) (st : LedgerState)
    (h : Reach settings st) :
    (queueCodes st).Nodup ∧
      ∀ (now : Nat) (c : String), c ∈ queueCodes st →
        (api_queue_join now c st).2 = st := by
  refine ⟨reach_queueCodes_nodup settings st h, ?_⟩
  intro now c hc
  by_cases hce : c = ""
  · simp [api_queue_join, hce]
  · obtain ⟨e, he, hesid⟩ := List.mem_map.mp hc
    have hsome : (st.queue.find? (fun x => x.student_id == c)).isSome = true := by
      rw [List.find?_isSome]
      exact ⟨e, he, by simp [hesid]⟩
    simp [api_queue_join, hce, hsome]

/-- Witness for C6 at a concrete one-step reachable state. -/
theorem c6_queue_one_entry_per_code_witness :
    (queueCodes (applyOp capOneAutoPromote true "" 7 (Op.queueJoin "222")
      { sessions := [], queue := [], banned := [], roster := [("222", "Bob")],
        students := [], nextId := 1 })).Nodup :=
  (c6_queue_one_entry_per_code capOneAutoPromote _
    (Reach.step true "" 7 (Op.queueJoin "222") _ (Reach.init [("222", "Bob")]))).1

/-! ### Dispatch and path characterization -/

theorem any_sid_eq_true_of_find? {l : List Session} {c : String} {s : Session}
    (h : l.find? (fun t => t.student_id == c) = some s) :
    l.any (fun t => t.student_id == c) = true := by
  rw [List.any_eq_true]
  refine ⟨s, List.mem_of_find?_eq_some h, ?_⟩
  have hps := List.find?_some h
  exact hps

theorem api_scan_eq_scanReturn (settings : Settings) (schedOk : Bool)
    (schedReason : String) (now : Nat) (c : String) (st : LedgerState) (s : Session)
    (htrim : pyStrip c = c) (hne : c ≠ "")
    (hfind : (get_open_sessions st).find? (fun t => t.student_id == c) = some s)
    (hname : get_student_name st.roster c "Student" ≠ "Student") :
    api_scan settings schedOk schedReason now c st =
      scanReturn settings now c (get_student_name st.roster c "Student") s
        (ensureStudent c st) := by
  have hany := any_sid_eq_true_of_find? hfind
  simp only [api_scan, htrim]
  split
  · rename_i h0
    exact absurd h0 hne
  · split
    · rename_i hcond
      rw [hany] at hcond
      simp at hcond
    · rw [hfind]

theorem api_scan_eq_scanNewPass (settings : Settings) (schedOk : Bool)
    (schedReason : String) (now : Nat) (c : String) (st : LedgerState)
    (htrim : pyStrip c = c) (hne : c ≠ "")
    (hnofind : (get_open_sessions st).find? (fun t => t.student_id == c) = none)
    (hgate : (is_schedule_available settings schedOk schedReason).1 = true ∨
      (settings.allow_queue_while_suspended = true ∧ settings.enable_queue = true))
    (hname : get_student_name st.roster c "Student" ≠ "Student") :
    api_scan settings schedOk schedReason now c st =
      scanNewPass settings (is_schedule_available settings schedOk schedReason).1 now c
        (get_student_name st.roster c "Student") (get_open_sessions st).length
        (ensureStudent c st) := by
  simp only [api_scan, htrim]
  split
  · rename_i h0
    exact absurd h0 hne
  · split
    · rename_i hcond
      rcases hgate with hg | ⟨hg1, hg2⟩
      · rw [hg] at hcond
        simp at hcond
      · rw [hg1, hg2] at hcond
        simp at hcond
    · rw [hnofind]

theorem closed_mem (l : List Session) (s : Session) (now : Nat) (eb : String)
    (hmem : s ∈ l) :
    ({ s with end_ts := some now, ended_by := some eb } : Session)
      ∈ closeSession l s.id now eb := by
  rw [closeSession]
  have h2 := List.mem_map_of_mem
    (fun t => if t.id == s.id then { t with end_ts := some now, ended_by := some eb }
              else t) hmem
  simpa using h2

theorem scanReturn_overdue_ban (settings : Settings) (now : Nat) (c nm : String)
    (s : Session) (st : LedgerState)
    (hab : settings.auto_ban_overdue = true)
    (hover : duration_seconds now s > settings.overdue_minutes * 60)
    (hnb : is_student_banned st c = false)
    (hnoq : settings.enable_queue = false ∨ settings.auto_promote_queue = false ∨
      st.queue = []) :
    scanReturn settings now c nm s st =
      ({ ok := true, action := some "ended_banned",
         message := some "PASSED RETURNED LATE - AUTO BANNED", name := some nm },
       { st with banned := st.banned ++ [c],
                 sessions := closeSession st.sessions s.id now "kiosk_scan" }) := by
  have hd : decide (duration_seconds now s > settings.overdue_minutes * 60) = true :=
    decide_eq_true hover
  rcases hnoq with hq | hq | hq <;>
    simp [scanReturn, hab, hnb, hd, hq, queueFront]

theorem scanReturn_plain_ended (settings : Settings) (now : Nat) (c nm : String)
    (s : Session) (st : LedgerState)
    (hab : settings.auto_ban_overdue = false)
    (henq : settings.enable_queue = false) :
    scanReturn settings now c nm s st =
      ({ ok := true, action := some "ended", message := none, name := some nm },
       { st with sessions := closeSession st.sessions s.id now "kiosk_scan" }) := by
  simp only [scanReturn, hab, henq, Bool.false_and, Bool.false_eq_true, if_false]

theorem scanReturn_closes (settings : Settings) (now : Nat) (c nm : String)
    (s : Session) (st : LedgerState) (hmem : s ∈ st.sessions) :
    (scanReturn settings now c nm s st).1.ok = true ∧
    ((scanReturn settings now c nm s st).1.action = some "ended" ∨
     (scanReturn settings now c nm s st).1.action = some "ended_banned" ∨
     (scanReturn settings now c nm s st).1.action = some "ended_auto_started") ∧
    ∃ t ∈ (scanReturn settings now c nm s st).2.sessions,
      t.id = s.id ∧ t.end_ts = some now ∧ t.ended_by = some "kiosk_scan" := by
  have hban : ∀ b : Bool,
      ((if b = true then { st with banned := st.banned ++ [c] } else st) :
        LedgerState).sessions = st.sessions := by
    intro b; split <;> rfl
  have hmem1 : ∀ b : Bool, s ∈
      ((if b = true then { st with banned := st.banned ++ [c] } else st) :
        LedgerState).sessions := by
    intro b; rw [hban]; exact hmem
  simp only [scanReturn]
  split
  · split
    · rename_i nxt hfront
      refine ⟨rfl, Or.inr (Or.inr rfl), ?_⟩
      refine ⟨{ s with end_ts := some now, ended_by := some "kiosk_scan" },
        List.mem_append_left _ (closed_mem _ s now _ (hmem1 _)), rfl, rfl, rfl⟩
    · refine ⟨rfl, ?_, ?_⟩
      · dsimp only
        split <;> simp
      · refine ⟨{ s with end_ts := some now, ended_by := some "kiosk_scan" },
          closed_mem _ s now _ (hmem1 _), rfl, rfl, rfl⟩
  · refine ⟨rfl, ?_, ?_⟩
    · dsimp only
      split <;> simp
    · refine ⟨{ s with end_ts := some now, ended_by := some "kiosk_scan" },
        closed_mem _ s now _ (hmem1 _), rfl, rfl, rfl⟩

theorem scanNewPass_banned_resp (settings : Settings) (available : Bool) (now : Nat)
    (c nm : String) (oc : Nat) (st : LedgerState)
    (hb : is_student_banned st c = true) :
    scanNewPass settings available now c nm oc st =
      ({ ok := false, action := some "banned",
         message := some "RESTROOM PRIVILEGES SUSPENDED - SEE TEACHER",
         name := some nm, status := 403 }, st) := by
  simp [scanNewPass, hb]

theorem scanNewPass_left_queue (settings : Settings) (available : Bool) (now : Nat)
    (c nm : String) (oc : Nat) (st : LedgerState) (entry : QueueEntry)
    (hb : is_student_banned st c = false)
    (hqf : st.queue.find? (fun e => e.student_id == c) = some entry) :
    scanNewPass settings available now c nm oc st =
      ({ ok := true, action := some "left_queue",
         message := some "Removed from waitlist", name := some nm },
       { st with queue := st.queue.eraseP (fun e => e.id == entry.id) }) := by
  simp only [scanNewPass, hb, Bool.false_eq_true, if_false, hqf]

theorem api_scan_suspended_denied (settings : Settings) (schedOk : Bool)
    (schedReason : String) (now : Nat) (c : String) (st : LedgerState)
    (htrim : pyStrip c = c) (hne : c ≠ "")
    (hnotret : (get_open_sessions st).any (fun t => t.student_id == c) = false)
    (hsusp : settings.kiosk_suspended = true)
    (hnoqws : settings.allow_queue_while_suspended = false ∨
      settings.enable_queue = false) :
    api_scan settings schedOk schedReason now c st =
      ({ ok := false, message := some "Kiosk is currently suspended by administrator",
         status := 403 }, st) := by
  have havail : is_schedule_available settings schedOk schedReason =
      (false, "Manually suspended") := by
    rw [is_schedule_available, if_pos hsusp]
  have hcond : (!(get_open_sessions st).any (fun s => s.student_id == c)
      && !(is_schedule_available settings schedOk schedReason).1
      && !(settings.allow_queue_while_suspended && settings.enable_queue)) = true := by
    rw [hnotret, havail]
    rcases hnoqws with hx | hx <;> rw [hx] <;> simp
  simp only [api_scan, htrim]
  rw [if_neg hne, if_pos hcond, havail]
  simp

theorem eraseP_id_no_code {l : List QueueEntry} {c : String} {entry : QueueEntry}
    (hfind : l.find? (fun e => e.student_id == c) = some entry)
    (hcodes : (l.map (fun e => e.student_id)).Nodup)
    (hids : (l.map (fun e => e.id)).Nodup) :
    ∀ e ∈ l.eraseP (fun e => e.id == entry.id), e.student_id ≠ c := by
  induction l with
  | nil => exact absurd hfind (by simp)
  | cons x xs ih =>
    rw [List.map_cons, List.nodup_cons] at hcodes hids
    by_cases hx : (x.student_id == c) = true
    · have hrw : List.find? (fun e => e.student_id == c) (x :: xs) = some x :=
        List.find?_cons_of_pos xs hx
      rw [hrw] at hfind
      obtain rfl := Option.some.inj hfind
      have herase : List.eraseP (fun e => e.id == x.id) (x :: xs) = xs :=
        List.eraseP_cons_of_pos (by simp)
      rw [herase]
      intro e he hec
      have hxc : x.student_id = c := by simpa using hx
      have hmm : x.student_id ∈ List.map (fun e => e.student_id) xs := by
        rw [hxc, ← hec]
        exact List.mem_map_of_mem _ he
      exact hcodes.1 hmm
    · have hrw : List.find? (fun e => e.student_id == c) (x :: xs) =
          List.find? (fun e => e.student_id == c) xs :=
        List.find?_cons_of_neg xs hx
      rw [hrw] at hfind
      have hentry_mem := List.mem_of_find?_eq_some hfind
      have hxid : ¬(x.id == entry.id) = true := by
        rw [Bool.not_eq_true, beq_eq_false_iff_ne]
        intro hxe
        have hmm : x.id ∈ List.map (fun e => e.id) xs := by
          rw [hxe]
          exact List.mem_map_of_mem _ hentry_mem
        exact hids.1 hmm
      have herase : List.eraseP (fun e => e.id == entry.id) (x :: xs) =
          x :: List.eraseP (fun e => e.id == entry.id) xs :=
        List.eraseP_cons_of_neg hxid
      rw [herase]
      intro e he hec
      rcases List.mem_cons.mp he with rfl | he'
      · exact hx (by simp [hec])
      · exact ih hfind hcodes.2 hids.2 e he' hec

theorem api_scan_action_ne_error (settings : Settings) (schedOk : Bool)
    (schedReason : String) (now : Nat) (code : String) (st : LedgerState) :
    (api_scan settings schedOk schedReason now code st).1.action ≠ some "error" := by
  simp only [api_scan, scanReturn, scanNewPass, scanStart]
  repeat' split
  all_goals simp

theorem statusPayloadOf_legacy (settings : Settings) (ks : Bool) (now : Nat)
    (st1 : LedgerState) :
    ((statusPayloadOf settings ks now st1).active_sessions = [] →
      (statusPayloadOf settings ks now st1).in_use = false ∧
      (statusPayloadOf settings ks now st1).name = "" ∧
      (statusPayloadOf settings ks now st1).start = none ∧
      (statusPayloadOf settings ks now st1).elapsed = 0 ∧
      (statusPayloadOf settings ks now st1).overdue = false) ∧
    (∀ (v : SessionView) (vs : List SessionView),
      (statusPayloadOf settings ks now st1).active_sessions = v :: vs →
      (statusPayloadOf settings ks now st1).in_use = true ∧
      (statusPayloadOf settings ks now st1).name = v.name ∧
      (statusPayloadOf settings ks now st1).start = some v.start ∧
      (statusPayloadOf settings ks now st1).elapsed = v.elapsed ∧
      (statusPayloadOf settings ks now st1).overdue = v.overdue) := by
  simp only [statusPayloadOf, get_current_holder]
  cases hh : get_open_sessions st1 with
  | nil =>
    simp
  | cons o os =>
    simp only [List.map_cons, List.head?]
    constructor
    · intro h
      exact absurd h (by simp)
    · intro v vs hv
      injection hv with h1 h2
      subst h1
      simp

/-- C10: when a tenant has zero open sessions, the legacy single-holder
fields of the status payload report empty/false/zero (`in_use` false,
`name` empty, `start` absent, `elapsed` 0, `overdue` false); when at least
one session is open they mirror the first open session's view. -/
theorem c10_legacy_single_holder_fields (settings : Settings) (schedOk : Bool)
    (schedReason : String) (now : Nat) (st : LedgerState) :
    (((_build_status_payload settings schedOk schedReason now st).1.active_sessions
        = []) →
      (_build_status_payload settings schedOk schedReason now st).1.in_use = false ∧
      (_build_status_payload settings schedOk schedReason now st).1.name = "" ∧
      (_build_status_payload settings schedOk schedReason now st).1.start = none ∧
      (_build_status_payload settings schedOk schedReason now st).1.elapsed = 0 ∧
      (_build_status_payload settings schedOk schedReason now st).1.overdue = false) ∧
    (∀ (v : SessionView) (vs : List SessionView),
      (_build_status_payload settings schedOk schedReason now st).1.active_sessions
        = v :: vs →
      (_build_status_payload settings schedOk schedReason now st).1.in_use = true ∧
      (_build_status_payload settings schedOk schedReason now st).1.name = v.name ∧
      (_build_status_payload settings schedOk schedReason now st).1.start
        = some v.start ∧
      (_build_status_payload settings schedOk schedReason now st).1.elapsed
        = v.elapsed ∧
      (_build_status_payload settings schedOk schedReason now st).1.overdue
        = v.overdue) :=
  statusPayloadOf_legacy settings
    (!(is_schedule_available settings schedOk schedReason).1) now
    (if (is_schedule_available settings schedOk schedReason).1
        && settings.enable_queue && settings.auto_promote_queue then
      promoteLoop settings now
        (((settings.capacity : Int) - ((get_open_sessions st).length : Int)).toNat) st
    else st)

/-- Witness for C10: the empty tenant reports the empty legacy fields. -/
theorem c10_legacy_single_holder_fields_witness :
    (_build_status_payload capOneNoQueue true "" 100 twoStudentState).1.in_use = false ∧
    (_build_status_payload capOneNoQueue true "" 100 twoStudentState).1.name = "" ∧
    (_build_status_payload capOneNoQueue true "" 100 twoStudentState).1.start = none ∧
    (_build_status_payload capOneNoQueue true "" 100 twoStudentState).1.elapsed = 0 ∧
    (_build_status_payload capOneNoQueue true "" 100 twoStudentState).1.overdue
      = false :=
  (c10_legacy_single_holder_fields capOneNoQueue true "" 100 twoStudentState).1
    (by decide)

/-! ### Scenario claims -/

/-- C2: with capacity 1 and the queue feature disabled, starting from no
open sessions and an empty queue, scanning "111" yields `started`, a
following scan of "222" yields `denied` with message "Pass limit
reached.", and a following scan of "111" yields `ended` and closes its
session. -/
theorem c2_capacity_one_queue_disabled_scenario :
    (api_scan capOneNoQueue true "" 100 "111" twoStudentState).1.action
      = some "started" ∧
    ((api_scan capOneNoQueue true "" 200 "222"
        (api_scan capOneNoQueue true "" 100 "111" twoStudentState).2).1 =
      { ok := false, action := some "denied", message := some "Pass limit reached.",
        status := 409 }) ∧
    ((api_scan capOneNoQueue true "" 300 "111"
        (api_scan capOneNoQueue true "" 200 "222"
          (api_scan capOneNoQueue true "" 100 "111" twoStudentState).2).2).1.action
      = some "ended") ∧
    ((api_scan capOneNoQueue true "" 300 "111"
        (api_scan capOneNoQueue true "" 200 "222"
          (api_scan capOneNoQueue true "" 100 "111" twoStudentState).2).2).2.sessions =
      [⟨1, "111", 100, some 300, "Room", some "kiosk_scan"⟩]) := by decide

/-- C3: with capacity 1, queue enabled and auto-promote on, after "111"
starts and "222" queues, a returning scan of "111" closes 111's session,
pops the queue head, opens a session for "222", answers
`ended_auto_started` with `next_student` = "Bob", and a subsequent status
snapshot shows "222" as the sole open session. -/
theorem c3_auto_promote_scenario :
    ((api_scan capOneAutoPromote true "" 100 "111" twoStudentState).1.action
      = some "started") ∧
    ((api_scan capOneAutoPromote true "" 200 "222"
        (api_scan capOneAutoPromote true "" 100 "111" twoStudentState).2).1.action
      = some "queued") ∧
    ((api_scan capOneAutoPromote true "" 300 "111"
        (api_scan capOneAutoPromote true "" 200 "222"
          (api_scan capOneAutoPromote true "" 100 "111" twoStudentState).2).2).1 =
      { ok := true, action := some "ended_auto_started", message := none,
        name := some "Alice", next_student := some "Bob", status := 200 }) ∧
    ((api_scan capOneAutoPromote true "" 300 "111"
        (api_scan capOneAutoPromote true "" 200 "222"
          (api_scan capOneAutoPromote true "" 100 "111" twoStudentState).2).2).2.queue
      = []) ∧
    (get_open_sessions
        (api_scan capOneAutoPromote true "" 300 "111"
          (api_scan capOneAutoPromote true "" 200 "222"
            (api_scan capOneAutoPromote true "" 100 "111" twoStudentState).2).2).2
      = [⟨3, "222", 300, none, "Room", some "auto"⟩]) ∧
    ((_build_status_payload capOneAutoPromote true "" 400
        (api_scan capOneAutoPromote true "" 300 "111"
          (api_scan capOneAutoPromote true "" 200 "222"
            (api_scan capOneAutoPromote true "" 100 "111" twoStudentState).2).2).2).1.active_sessions
      = [⟨3, "Bob", 100, false, 300⟩]) := by decide

/-- C8: admin reorder with list ["444", "333"] applied to a queue holding
333 then 444 assigns strictly increasing join timestamps in the given
order (444 gets 100, 333 gets 101), so the next FIFO promotions run 444
then 333. -/
theorem c8_reorder_roundtrip :
    ((api_queue_reorder 100 ["444", "333"] reorderState).2.queue =
      [⟨1, "333", 101⟩, ⟨2, "444", 100⟩]) ∧
    (queueFront (api_queue_reorder 100 ["444", "333"] reorderState).2.queue =
      some ⟨2, "444", 100⟩) ∧
    ((_build_status_payload capTwoAutoPromote true "" 200
        (api_queue_reorder 100 ["444", "333"] reorderState).2).2.sessions.map
        (fun s => s.student_id) = ["444", "333"]) := by decide

/-! ### Counterexamples -/

/-- C4 counterexample: code "999" holds a session that is 1000 s old
(threshold 600 s), auto-ban-overdue is on and "999" is not banned — the
claim's hypotheses hold — yet the returning scan answers 404 "Incorrect
ID" because "999" does not resolve in the roster: no ban is recorded, the
outcome is not `ended_banned`, and the ledger is unchanged. -/
theorem c4_unrostered_overdue_counterexample :
    ((get_open_sessions unrosteredHolderState).find? (fun s => s.student_id == "999")
      = some ⟨1, "999", 0, none, "Room", some "auto"⟩) ∧
    duration_seconds 1000 ⟨1, "999", 0, none, "Room", some "auto"⟩ >
      autoBanSettings.overdue_minutes * 60 ∧
    autoBanSettings.auto_ban_overdue = true ∧
    is_student_banned unrosteredHolderState "999" = false ∧
    (api_scan autoBanSettings true "" 1000 "999" unrosteredHolderState).1.status = 404 ∧
    ¬((api_scan autoBanSettings true "" 1000 "999" unrosteredHolderState).1.action
      = some "ended_banned") ∧
    (api_scan autoBanSettings true "" 1000 "999" unrosteredHolderState).2
      = unrosteredHolderState := by decide

/-- C5 counterexample: code "555" currently holds an open session, yet its
scan does not succeed with `ended`: it is rejected 404 ("Incorrect ID")
because "555" does not resolve in the roster. -/
theorem c5_unrostered_return_counterexample :
    ((get_open_sessions unrosteredHolderState2).any (fun s => s.student_id == "555")
      = true) ∧
    (api_scan capOneNoQueue true "" 60 "555" unrosteredHolderState2).1.ok = false ∧
    ¬((api_scan capOneNoQueue true "" 60 "555" unrosteredHolderState2).1.action
      = some "ended") ∧
    (api_scan capOneNoQueue true "" 60 "555" unrosteredHolderState2).1.status
      = 404 := by decide

/-- C7 counterexample: "111" is in the queue, holds no pass and is not
banned, but the kiosk is manually suspended with queue-while-suspended
not allowed, so its scan is rejected 403 before the self-removal step:
the outcome is not `left_queue` and the queue entry stays. -/
theorem c7_suspended_self_removal_counterexample :
    ("111" ∈ queueCodes queuedState) ∧
    ((get_open_sessions queuedState).any (fun s => s.student_id == "111") = false) ∧
    is_student_banned queuedState "111" = false ∧
    ¬((api_scan suspendedSettings true "" 100 "111" queuedState).1.action
      = some "left_queue") ∧
    (api_scan suspendedSettings true "" 100 "111" queuedState).1.status = 403 ∧
    (api_scan suspendedSettings true "" 100 "111" queuedState).2 = queuedState := by
  decide

/-- C9 counterexample: availability is true and unchanged across two
consecutive snapshots — there is no unavailable-to-available transition —
yet the second snapshot still promotes the code queued in between into an
open session. -/
theorem c9_no_transition_promotion_counterexample :
    ((is_schedule_available capOneAutoPromote true "").1 = true) ∧
    ((_build_status_payload capOneAutoPromote true "" 100 twoStudentState).2
      = twoStudentState) ∧
    ((_build_status_payload capOneAutoPromote true "" 200
        (api_queue_join 150 "222" twoStudentState).2).2.sessions
      = [⟨2, "222", 200, none, "Room", some "auto_promote"⟩]) := by decide

/-! ### Amended claims -/

/-- C9 (amended): the Status Aggregator performs queue-to-session
auto-promotions on every snapshot taken while the kiosk is available with
the queue feature and auto-promote enabled — regardless of whether
availability just transitioned — promoting one entry at a time while
slots remain, ending with min(capacity, open + queued) open sessions;
when unavailable, or either toggle is off, a snapshot performs no
promotion and leaves the ledger unchanged. -/
theorem c9_promotion_whenever_available (settings : Settings) (schedOk : Bool)
    (schedReason : String) (now : Nat) (st : LedgerState)
    (hcap : countOpen st ≤ settings.capacity) :
    (((is_schedule_available settings schedOk schedReason).1 = false ∨
        settings.enable_queue = false ∨ settings.auto_promote_queue = false) →
      (_build_status_payload settings schedOk schedReason now st).2 = st) ∧
    ((is_schedule_available settings schedOk schedReason).1 = true →
      settings.enable_queue = true → settings.auto_promote_queue = true →
      countOpen (_build_status_payload settings schedOk schedReason now st).2 =
        min settings.capacity (countOpen st + st.queue.length)) := by
  constructor
  · intro hoff
    rw [build_status_payload_snd]
    rcases hoff with hx | hx | hx <;> rw [hx] <;> simp
  · intro h1 h2 h3
    rw [build_status_payload_snd, h1, h2, h3]
    simp only [Bool.and_self, if_true]
    rw [promoteLoop_countOpen]
    have hlen : (get_open_sessions st).length = countOpen st := rfl
    rw [hlen]
    omega

/-- Witness for C9 (amended): one queued student is promoted by an
available snapshot. -/
theorem c9_promotion_whenever_available_witness :
    countOpen (_build_status_payload capOneAutoPromote true "" 50 queuedState).2 =
      min capOneAutoPromote.capacity (countOpen queuedState + queuedState.queue.length) :=
  (c9_promotion_whenever_available capOneAutoPromote true "" 50 queuedState
    (by decide)).2 rfl rfl rfl

/-- C4 (amended): on a returning scan whose code resolves in the roster,
if the session's elapsed seconds strictly exceed overdue_minutes*60,
auto_ban_overdue is enabled and the student is not already banned — and no
queue auto-promotion applies (otherwise the reported outcome becomes
`ended_auto_started`) — then the student is banned, the outcome is
`ended_banned`, and the session is closed with end time set and
ended_by = kiosk_scan; any later new-pass scan by that banned student
whose code still resolves, with the kiosk available (or
queue-while-suspended applying), returns outcome `banned` with HTTP 403
and opens no session. -/
theorem c4_overdue_return_autoban (settings : Settings) (schedOk : Bool)
    (schedReason : String) (now : Nat) (c : String) (st : LedgerState) (s : Session)
    (settings2 : Settings) (schedOk2 : Bool) (schedReason2 : String) (now2 : Nat)
    (st2 : LedgerState)
    (htrim : pyStrip c = c) (hne : c ≠ "")
    (hfind : (get_open_sessions st).find? (fun t => t.student_id == c) = some s)
    (hname : get_student_name st.roster c "Student" ≠ "Student")
    (hover : duration_seconds now s > settings.overdue_minutes * 60)
    (hab : settings.auto_ban_overdue = true)
    (hnb : is_student_banned st c = false)
    (hnoq : settings.enable_queue = false ∨ settings.auto_promote_queue = false ∨
      st.queue = [])
    (h2name : get_student_name st2.roster c "Student" ≠ "Student")
    (h2ban : is_student_banned st2 c = true)
    (h2nofind : (get_open_sessions st2).find? (fun t => t.student_id == c) = none)
    (h2gate : (is_schedule_available settings2 schedOk2 schedReason2).1 = true ∨
      (settings2.allow_queue_while_suspended = true ∧
        settings2.enable_queue = true)) :
    (api_scan settings schedOk schedReason now c st).1.action = some "ended_banned" ∧
    (api_scan settings schedOk schedReason now c st).1.ok = true ∧
    (api_scan settings schedOk schedReason now c st).2.banned = st.banned ++ [c] ∧
    (api_scan settings schedOk schedReason now c st).2.sessions
      = closeSession st.sessions s.id now "kiosk_scan" ∧
    ((api_scan settings2 schedOk2 schedReason2 now2 c st2).1 =
      { ok := false, action := some "banned",
        message := some "RESTROOM PRIVILEGES SUSPENDED - SEE TEACHER",
        name := some (get_student_name st2.roster c "Student"), status := 403 }) ∧
    (api_scan settings2 schedOk2 schedReason2 now2 c st2).2.sessions
      = st2.sessions := by
  have hnb' : is_student_banned (ensureStudent c st) c = false := by
    rw [is_student_banned_ensureStudent]
    exact hnb
  have hnoq' : settings.enable_queue = false ∨ settings.auto_promote_queue = false ∨
      (ensureStudent c st).queue = [] := by
    rcases hnoq with hq | hq | hq
    · exact Or.inl hq
    · exact Or.inr (Or.inl hq)
    · exact Or.inr (Or.inr (by rw [ensureStudent_queue, hq]))
  have h1 := api_scan_eq_scanReturn settings schedOk schedReason now c st s
    htrim hne hfind hname
  have h2 := scanReturn_overdue_ban settings now c
    (get_student_name st.roster c "Student") s (ensureStudent c st) hab hover hnb' hnoq'
  have h3 := api_scan_eq_scanNewPass settings2 schedOk2 schedReason2 now2 c st2
    htrim hne h2nofind h2gate h2name
  have h2ban' : is_student_banned (ensureStudent c st2) c = true := by
    rw [is_student_banned_ensureStudent]
    exact h2ban
  have h4 := scanNewPass_banned_resp settings2
    (is_schedule_available settings2 schedOk2 schedReason2).1 now2 c
    (get_student_name st2.roster c "Student") (get_open_sessions st2).length
    (ensureStudent c st2) h2ban'
  rw [h1, h2, h3, h4]
  refine ⟨rfl, rfl, ?_, ?_, rfl, ?_⟩
  · dsimp only
    rw [ensureStudent_banned]
  · dsimp only
    rw [ensureStudent_sessions]
  · dsimp only
    rw [ensureStudent_sessions]

/-- Witness for C4 (amended) at an overdue rostered holder and the banned
state its scan produces. -/
theorem c4_overdue_return_autoban_witness :
    (api_scan autoBanSettings true "" 1000 "111" rosteredHolderState).1.action
      = some "ended_banned" ∧
    (api_scan autoBanSettings true "" 1000 "111" rosteredHolderState).2.banned
      = rosteredHolderState.banned ++ ["111"] ∧
    (api_scan autoBanSettings true "" 2000 "111"
      ⟨[⟨1, "111", 0, some 1000, "Room", some "kiosk_scan"⟩], [], ["111"],
        [("111", "Alice")], ["111"], 2⟩).1.status = 403 := by
  have h := c4_overdue_return_autoban autoBanSettings true "" 1000 "111"
    rosteredHolderState ⟨1, "111", 0, none, "Room", none⟩
    autoBanSettings true "" 2000
    ⟨[⟨1, "111", 0, some 1000, "Room", some "kiosk_scan"⟩], [], ["111"],
      [("111", "Alice")], ["111"], 2⟩
    (by decide) (by decide) (by decide) (by decide) (by decide) (by decide)
    (by decide) (by decide) (by decide) (by decide) (by decide) (by decide)
  refine ⟨h.1, h.2.2.1, ?_⟩
  rw [h.2.2.2.2.1]

/-- C5 (amended): a scan by a student who currently holds an open session
and whose code resolves in the roster always takes the return path and
closes the session (`ok`, outcome `ended` / `ended_banned` /
`ended_auto_started`; exactly `ended` when overdue auto-ban and the queue
feature are off), even when the kiosk is manually suspended or
schedule-unavailable; whereas a new-pass scan while manually suspended
with queue-while-suspended not allowed is denied 403 with the suspension
message and no ledger mutation. -/
theorem c5_return_always_allowed (settings : Settings) (schedOk : Bool)
    (schedReason : String) (now : Nat) (c : String) (st : LedgerState) (s : Session)
    (settings2 : Settings) (schedOk2 : Bool) (schedReason2 : String) (now2 : Nat)
    (c2 : String) (st2 : LedgerState)
    (htrim : pyStrip c = c) (hne : c ≠ "")
    (hfind : (get_open_sessions st).find? (fun t => t.student_id == c) = some s)
    (hname : get_student_name st.roster c "Student" ≠ "Student")
    (h2trim : pyStrip c2 = c2) (h2ne : c2 ≠ "")
    (h2notret : (get_open_sessions st2).any (fun t => t.student_id == c2) = false)
    (h2susp : settings2.kiosk_suspended = true)
    (h2noqws : settings2.allow_queue_while_suspended = false ∨
      settings2.enable_queue = false) :
    (api_scan settings schedOk schedReason now c st).1.ok = true ∧
    ((api_scan settings schedOk schedReason now c st).1.action = some "ended" ∨
     (api_scan settings schedOk schedReason now c st).1.action = some "ended_banned" ∨
     (api_scan settings schedOk schedReason now c st).1.action
       = some "ended_auto_started") ∧
    (∃ t ∈ (api_scan settings schedOk schedReason now c st).2.sessions,
      t.id = s.id ∧ t.end_ts = some now ∧ t.ended_by = some "kiosk_scan") ∧
    (settings.auto_ban_overdue = false → settings.enable_queue = false →
      (api_scan settings schedOk schedReason now c st).1.action = some "ended") ∧
    (api_scan settings2 schedOk2 schedReason2 now2 c2 st2).1.ok = false ∧
    (api_scan settings2 schedOk2 schedReason2 now2 c2 st2).1.status = 403 ∧
    (api_scan settings2 schedOk2 schedReason2 now2 c2 st2).1.message
      = some "Kiosk is currently suspended by administrator" ∧
    (api_scan settings2 schedOk2 schedReason2 now2 c2 st2).2 = st2 := by
  have h1 := api_scan_eq_scanReturn settings schedOk schedReason now c st s
    htrim hne hfind hname
  have hmem' : s ∈ (ensureStudent c st).sessions := by
    rw [ensureStudent_sessions]
    exact (List.mem_filter.mp (List.mem_of_find?_eq_some hfind)).1
  have hcl := scanReturn_closes settings now c
    (get_student_name st.roster c "Student") s (ensureStudent c st) hmem'
  have hB := api_scan_suspended_denied settings2 schedOk2 schedReason2 now2 c2 st2
    h2trim h2ne h2notret h2susp h2noqws
  rw [h1, hB]
  refine ⟨hcl.1, hcl.2.1, hcl.2.2, ?_, rfl, rfl, rfl, rfl⟩
  intro hab henq
  rw [scanReturn_plain_ended settings now c
    (get_student_name st.roster c "Student") s (ensureStudent c st) hab henq]

/-- Witness for C5 (amended): the suspended tenant still accepts the
return scan, and denies the new-pass scan. -/
theorem c5_return_always_allowed_witness :
    (api_scan suspendedSettings true "" 60 "111" rosteredHolderState).1.ok = true ∧
    (api_scan suspendedSettings true "" 60 "111" rosteredHolderState).1.action
      = some "ended" ∧
    (api_scan suspendedSettings true "" 100 "222" twoStudentState).1.status = 403 ∧
    (api_scan suspendedSettings true "" 100 "222" twoStudentState).2
      = twoStudentState := by
  have h := c5_return_always_allowed suspendedSettings true "" 60 "111"
    rosteredHolderState ⟨1, "111", 0, none, "Room", none⟩
    suspendedSettings true "" 100 "222" twoStudentState
    (by decide) (by decide) (by decide) (by decide) (by decide) (by decide)
    (by decide) (by decide) (by decide)
  exact ⟨h.1, h.2.2.2.1 (by decide) (by decide), h.2.2.2.2.2.1, h.2.2.2.2.2.2.2⟩

/-- C7 (amended): scanning a code that is already in the queue — provided
it holds no pass, is not banned, resolves in the roster, and the kiosk is
available to it (or queue-while-suspended with the queue feature applies)
— removes exactly its queue entry and returns outcome `left_queue` with no
session or ban change; the code is then absent from the queue, so a
further scan re-enters the normal queue/capacity rules from a
no-entry state; and no scan ever produces an `error` outcome. -/
theorem c7_queue_self_removal (settings : Settings) (schedOk : Bool)
    (schedReason : String) (now : Nat) (c : String) (st : LedgerState)
    (entry : QueueEntry)
    (htrim : pyStrip c = c) (hne : c ≠ "")
    (hq : st.queue.find? (fun e => e.student_id == c) = some entry)
    (hnoopen : (get_open_sessions st).find? (fun t => t.student_id == c) = none)
    (hban : is_student_banned st c = false)
    (hname : get_student_name st.roster c "Student" ≠ "Student")
    (hgate : (is_schedule_available settings schedOk schedReason).1 = true ∨
      (settings.allow_queue_while_suspended = true ∧ settings.enable_queue = true))
    (hcodes : (queueCodes st).Nodup)
    (hids : (st.queue.map (fun e => e.id)).Nodup) :
    (api_scan settings schedOk schedReason now c st).1.action = some "left_queue" ∧
    (api_scan settings schedOk schedReason now c st).1.ok = true ∧
    (api_scan settings schedOk schedReason now c st).2.sessions = st.sessions ∧
    (api_scan settings schedOk schedReason now c st).2.banned = st.banned ∧
    (api_scan settings schedOk schedReason now c st).2.queue
      = st.queue.eraseP (fun e => e.id == entry.id) ∧
    (∀ e ∈ (api_scan settings schedOk schedReason now c st).2.queue,
      e.student_id ≠ c) ∧
    (∀ (settings3 : Settings) (schedOk3 : Bool) (schedReason3 : String) (now3 : Nat)
       (code3 : String) (st3 : LedgerState),
      (api_scan settings3 schedOk3 schedReason3 now3 code3 st3).1.action
        ≠ some "error") := by
  have h1 := api_scan_eq_scanNewPass settings schedOk schedReason now c st
    htrim hne hnoopen hgate hname
  have hban' : is_student_banned (ensureStudent c st) c = false := by
    rw [is_student_banned_ensureStudent]
    exact hban
  have hq' : (ensureStudent c st).queue.find? (fun e => e.student_id == c)
      = some entry := by
    rw [ensureStudent_queue]
    exact hq
  have h2 := scanNewPass_left_queue settings
    (is_schedule_available settings schedOk schedReason).1 now c
    (get_student_name st.roster c "Student") (get_open_sessions st).length
    (ensureStudent c st) entry hban' hq'
  rw [h1, h2]
  refine ⟨rfl, rfl, ?_, ?_, ?_, ?_, ?_⟩
  · dsimp only
    rw [ensureStudent_sessions]
  · dsimp only
    rw [ensureStudent_banned]
  · dsimp only
    rw [ensureStudent_queue]
  · dsimp only
    rw [ensureStudent_queue]
    exact eraseP_id_no_code hq hcodes hids
  · intro settings3 schedOk3 schedReason3 now3 code3 st3
    exact api_scan_action_ne_error settings3 schedOk3 schedReason3 now3 code3 st3

/-- Witness for C7 (amended): rostered "111" waiting in the queue of an
available kiosk leaves it by scanning. -/
theorem c7_queue_self_removal_witness :
    (api_scan capOneNoQueue true "" 100 "111" queuedState).1.action
      = some "left_queue" ∧
    (api_scan capOneNoQueue true "" 100 "111" queuedState).2.queue
      = queuedState.queue.eraseP (fun e => e.id == 1) := by
  have h := c7_queue_self_removal capOneNoQueue true "" 100 "111" queuedState
    ⟨1, "111", 5⟩ (by decide) (by decide) (by decide) (by decide) (by decide)
    (by decide) (by decide) (by decide) (by decide)
  exact ⟨h.1, h.2.2.2.2.1⟩

end HalllDay
